import Mathlib

/-!
Shallow embedding of `src/definitions/math/predicate.py`: the `Predicate`
value type (subject–relation–object assertions), its construction-time
validation, dict serialization, negation classification, and the fuzzy
matching algorithm.

Python strings are embedded as `String`, with the relevant `str` methods
(`strip`, `lower`, `split`, `replace`, `startswith`, substring membership)
re-implemented over `List Char` so that every definition reduces in the
kernel.  Python floats are embedded as `ℚ` (all confidence arithmetic in
the source is comparisons against 0 and 1).  Heterogeneous Python values
(the `obj: Any` field and dict values) are embedded as the inductive
`PyVal`.  Fallible operations return `Except`.
-/

/-- Python `str.isspace`-style whitespace characters recognised by
`str.strip()` / `str.split()` (ASCII subset, which is all the source uses). -/
def isPySpace (c : Char) : Bool :=
  c = ' ' || c = '\t' || c = '\n' || c = '\r' || c = '\x0b' || c = '\x0c'

/-- Python `s.strip()`: remove leading and trailing whitespace. -/
def pyStrip (s : String) : String :=
  String.mk (((s.data.dropWhile isPySpace).reverse.dropWhile isPySpace).reverse)

/-- ASCII lower-casing of one character, as Python `str.lower` acts on the
ASCII strings used here. -/
def pyLowerChar (c : Char) : Char :=
  if 65 ≤ c.toNat ∧ c.toNat ≤ 90 then Char.ofNat (c.toNat + 32) else c

/-- Python `s.lower()` on ASCII strings. -/
def pyLower (s : String) : String :=
  String.mk (s.data.map pyLowerChar)

/-- Python `s.replace('_', ' ')`. -/
def pyUnderscoreToSpace (s : String) : String :=
  String.mk (s.data.map (fun c => if c = '_' then ' ' else c))

/-- Helper for `pySplitWs`: accumulates the current word (reversed). -/
def pySplitWsAux : List Char → List Char → List String
  | [], acc => if acc.isEmpty then [] else [String.mk acc.reverse]
  | c :: cs, acc =>
    if isPySpace c then
      if acc.isEmpty then pySplitWsAux cs []
      else String.mk acc.reverse :: pySplitWsAux cs []
    else pySplitWsAux cs (c :: acc)

/-- Python `s.split()` with no arguments: split on runs of whitespace,
discarding empty tokens. -/
def pySplitWs (s : String) : List String :=
  pySplitWsAux s.data []

/-- Python `' '.join(ws)`. -/
def joinSpace : List String → String
  | [] => ""
  | [w] => w
  | w :: ws => w ++ " " ++ joinSpace ws

/-- Python substring membership `needle in hay` (note: the empty string is a
substring of every string). -/
def pySubstring (needle hay : String) : Bool :=
  decide (needle.data <:+: hay.data)

/-- The `PredicateType` enumeration from the source, a closed set of five
category tags whose `Enum` values are the strings below. -/
inductive PredicateType where
  | ASSERTION
  | PERMISSION
  | OBLIGATION
  | RESTRICTION
  | RELATION
deriving DecidableEq, Repr

/-- The string value attached to each `PredicateType` member. -/
def PredicateType.value : PredicateType → String
  | .ASSERTION => "assertion"
  | .PERMISSION => "permission"
  | .OBLIGATION => "obligation"
  | .RESTRICTION => "restriction"
  | .RELATION => "relation"

/-- Enum lookup by string value: `PredicateType("assertion")` etc. -/
def PredicateType.ofString : String → Option PredicateType
  | "assertion" => some .ASSERTION
  | "permission" => some .PERMISSION
  | "obligation" => some .OBLIGATION
  | "restriction" => some .RESTRICTION
  | "relation" => some .RELATION
  | _ => none

/-- Flat Python literal values: the universe of metadata values in this
embedding (`metadata: Dict[str, Any]` is embedded as a string-keyed map
into these literals). -/
inductive PyLit where
  | none
  | str (s : String)
  | int (n : ℤ)
  | bool (b : Bool)
  | num (q : ℚ)
deriving DecidableEq, Repr

/-- Heterogeneous Python values, covering everything the source stores in
the `obj: Any` field and dict values: `None`, strings, ints, bools, floats
(as `ℚ`), `PredicateType` members, and string-keyed dicts of literals. -/
inductive PyVal where
  | none
  | str (s : String)
  | int (n : ℤ)
  | bool (b : Bool)
  | num (q : ℚ)
  | ptype (t : PredicateType)
  | dict (entries : List (String × PyLit))
deriving DecidableEq, Repr

/-- Python `str(v)` for the embedded values. -/
def pyStr : PyVal → String
  | .none => "None"
  | .str s => s
  | .int n => toString n
  | .bool true => "True"
  | .bool false => "False"
  | .num q => toString q
  | .ptype t => "PredicateType." ++ (match t with
      | .ASSERTION => "ASSERTION"
      | .PERMISSION => "PERMISSION"
      | .OBLIGATION => "OBLIGATION"
      | .RESTRICTION => "RESTRICTION"
      | .RELATION => "RELATION")
  | .dict _ => "<dict>"

/-- Python truthiness of the embedded values (`bool(v)`). -/
def pyTruthy : PyVal → Bool
  | .none => false
  | .str s => decide (s ≠ "")
  | .int n => decide (n ≠ 0)
  | .bool b => b
  | .num q => decide (q ≠ 0)
  | .ptype _ => true
  | .dict d => !d.isEmpty

/-- Python `repr(v)`, only as far as error messages need it. -/
def pyRepr : PyVal → String
  | .none => "None"
  | .str s => "'" ++ s ++ "'"
  | v => pyStr v

/-- The Python exceptions raised by the source. -/
inductive PyError where
  | keyError (key : String)
  | valueError (msg : String)
  | typeError (msg : String)
deriving DecidableEq, Repr

/-- Python `dict` lookup `d.get(k)` over an association list with distinct
keys (first binding wins, as insertion order is irrelevant here). -/
def dictGet (data : List (String × PyVal)) (k : String) : Option PyVal :=
  match data.find? (fun kv => kv.1 = k) with
  | some kv => some kv.2
  | _ => Option.none

/-- Python `d[k]`: lookup that raises `KeyError` when the key is absent. -/
def dictGetK (data : List (String × PyVal)) (k : String) :
    Except PyError PyVal :=
  match dictGet data k with
  | some v => .ok v
  | _ => .error (.keyError k)

/-- The `Predicate` dataclass.  Fields follow the source's annotations:
`subj: str`, `pred: str`, `obj: Any`, `confidence: float`,
`source: Optional[str]`, `predicate_type: Optional[PredicateType]`,
`metadata: Dict[str, Any]`. -/
structure Predicate where
  subj : String
  pred : String
  obj : PyVal
  confidence : ℚ
  source : Option String
  predicate_type : Option PredicateType
  metadata : List (String × PyLit)
deriving DecidableEq, Repr

/-- The object-trimming step of `__post_init__`: textual objects are
stripped, all other values pass through unchanged. -/
def stripObj : PyVal → PyVal
  | .str s => .str (pyStrip s)
  | v => v

/-- `__post_init__`, embedded as a smart constructor: strip `subj`, `pred`
and (if textual) `obj`; raise `ValueError` when subject or predicate is
falsy (empty string) or the object is `None`; raise `ValueError` naming the
offending value when confidence is outside `[0, 1]`. -/
def Predicate.construct (subj pred : String) (obj : PyVal) (confidence : ℚ)
    (source : Option String) (predicate_type : Option PredicateType)
    (metadata : List (String × PyLit)) : Except PyError Predicate :=
  let subj := pyStrip subj
  let pred := pyStrip pred
  let obj := stripObj obj
  if subj = "" ∨ pred = "" ∨ obj = PyVal.none then
    .error (.valueError "Subject, Predicate and Object must be non-empty")
  else if ¬ (0 ≤ confidence ∧ confidence ≤ 1) then
    .error (.valueError
      ("Confidence score must be in range [0, 1], got " ++ toString confidence))
  else
    .ok (Predicate.mk subj pred obj confidence source predicate_type metadata)

/-- `to_triple`: the identity triple `(subj, pred, obj)`. -/
def Predicate.to_triple (p : Predicate) : String × String × PyVal :=
  (p.subj, p.pred, p.obj)

/-- `to_dict`: the fixed-key record; note the object is stored under the key
`"object"`, and the `"type"` entry holds the enum member itself (or `None`),
since a `PredicateType` member is always truthy. -/
def Predicate.to_dict (p : Predicate) : List (String × PyVal) :=
  [("subject", .str p.subj),
   ("predicate", .str p.pred),
   ("object", p.obj),
   ("confidence", .num p.confidence),
   ("source", match p.source with | some s => .str s | _ => .none),
   ("type", match p.predicate_type with | some t => .ptype t | _ => .none),
   ("metadata", .dict p.metadata)]

/-- The Enum call `PredicateType(v)`: a member maps to itself, a string maps
through value lookup, and anything else (in particular `None`) raises
`ValueError: {v!r} is not a valid PredicateType`. -/
def PredicateType.ofValue : PyVal → Except PyError PredicateType
  | .ptype t => .ok t
  | .str s =>
    match PredicateType.ofString s with
    | some t => .ok t
    | _ => .error (.valueError (pyRepr (.str s) ++ " is not a valid PredicateType"))
  | v => .error (.valueError (pyRepr v ++ " is not a valid PredicateType"))

/-- Python numeric coercion for confidence values read from a dict (bools
are ints in Python); any non-numeric value would make the later `0 <= c <= 1`
comparison raise `TypeError`. -/
def pyAsNum : PyVal → Except PyError ℚ
  | .num q => .ok q
  | .int n => .ok (n : ℚ)
  | .bool b => .ok (if b then 1 else 0)
  | _ => .error (.typeError "comparison not supported for confidence value")

/-- `from_dict`, embedded line by line.  First
`PredicateType(data["type"] if data.get("type") else None)` is evaluated
(so an absent or falsy `"type"` raises `ValueError` via
`PredicateType(None)`), then the constructor arguments are evaluated left
to right: `data["subject"]`, `data["predicate"]`, `data['obj']` (the source
reads the key `'obj'`, not `'object'`), `data.get("confidence", 1.0)`,
`data.get("source")`, `data.get("metadata", {})`.  The dataclass annotates
`subj`/`pred` as `str`, `source` as `Optional[str]` and `metadata` as
`Dict[str, Any]`; values outside these annotations are modelled as type
errors. -/
def Predicate.from_dict (data : List (String × PyVal)) : Except PyError Predicate := do
  let typeArg : PyVal :=
    match dictGet data "type" with
    | some v => if pyTruthy v then v else .none
    | _ => .none
  let pred_type ← PredicateType.ofValue typeArg
  let subjV ← dictGetK data "subject"
  let subj ← match subjV with
    | .str s => Except.ok s
    | _ => Except.error (.typeError "subject must be a str")
  let predV ← dictGetK data "predicate"
  let pred ← match predV with
    | .str s => Except.ok s
    | _ => Except.error (.typeError "predicate must be a str")
  let obj ← dictGetK data "obj"
  let confidence ← match dictGet data "confidence" with
    | some v => pyAsNum v
    | _ => Except.ok (1 : ℚ)
  let source ← match dictGet data "source" with
    | some (.str s) => Except.ok (some s)
    | some .none => Except.ok Option.none
    | some _ => Except.error (.typeError "source must be a str or None")
    | _ => Except.ok Option.none
  let metadata ← match dictGet data "metadata" with
    | some (.dict d) => Except.ok d
    | some _ => Except.error (.typeError "metadata must be a dict")
    | _ => Except.ok ([] : List (String × PyLit))
  Predicate.construct subj pred obj confidence source (some pred_type) metadata

/-- The fixed closed set of negative-relation tokens from `is_negation`. -/
def negation_predicates : List String :=
  ["cannot", "shall_not", "should_not", "must_not", "is_not", "are_not",
   "does_not", "do_not", "forbids", "restricts", "was_not", "were_not",
   "ought_not", "might_not"]

/-- Python `s.startswith(pre)`. -/
def pyStartsWith (s pre : String) : Bool :=
  pre.data.isPrefixOf s.data

/-- `is_negation`: the relation is a member of the fixed token set, or
begins with the literal `"not_"`. -/
def Predicate.is_negation (p : Predicate) : Bool :=
  negation_predicates.contains p.pred || pyStartsWith p.pred "not_"

/-- The normalization pipeline of `_fuzzy_match`:
`s.lower().strip()`, then `' '.join(s.replace('_', ' ').split())`. -/
def fuzzyNormalize (s : String) : String :=
  joinSpace (pySplitWs (pyUnderscoreToSpace (pyStrip (pyLower s))))

/-- The word token set of a normalized string: `set(s.split())`. -/
def wordSet (s : String) : Finset String :=
  (pySplitWs s).toFinset

/-- `_fuzzy_match(s1, s2, threshold)`: exact match after normalization, or
substring containment either way, or word-level Jaccard similarity at least
the threshold (with the source's guards: false when either token set is
empty, false when the union is empty). -/
def fuzzy_match (s1 s2 : String) (threshold : ℚ) : Bool :=
  let n1 := fuzzyNormalize s1
  let n2 := fuzzyNormalize s2
  if n1 = n2 then true
  else if pySubstring n1 n2 || pySubstring n2 n1 then true
  else
    let words1 := wordSet n1
    let words2 := wordSet n2
    if words1 = ∅ || words2 = ∅ then false
    else
      let i := (words1 ∩ words2).card
      let u := (words1 ∪ words2).card
      if u = 0 then false
      else decide (mkRat i u ≥ threshold)

/-- `matches(self, other, fuzzy)`: in fuzzy mode, fuzzy-match the subjects,
require exactly equal relations, and fuzzy-match the objects coerced with
`str(...)`; in exact mode, compare the triples.  The threshold is the
source's default `0.5` (written `mkRat 1 2`, the kernel-computable form of
`1/2`). -/
def Predicate.matches (p other : Predicate) (fuzzy : Bool) : Bool :=
  if fuzzy then
    fuzzy_match p.subj other.subj (mkRat 1 2) && p.pred == other.pred &&
      fuzzy_match (pyStr p.obj) (pyStr other.obj) (mkRat 1 2)
  else
    decide (p.to_triple = other.to_triple)

/-- `__eq__` (between two `Predicate`s): equality of identity triples. -/
def Predicate.eq (p other : Predicate) : Bool :=
  decide (p.to_triple = other.to_triple)

/-- Python's builtin `hash`, modelled on its arity contract: it accepts
exactly one argument and raises `TypeError` otherwise.  The hash value of a
single argument is opaque in CPython; it is modelled as `0` here, which the
development never relies on because `__hash__` never reaches it. -/
def pyHash : List PyVal → Except PyError ℤ
  | [_] => .ok 0
  | args => .error (.typeError
      ("hash() takes exactly one argument (" ++ toString args.length ++ " given)"))

/-- `__hash__`: the source calls `hash(self.subj, self.pred, str(self.obj))`
— three separate arguments to the one-argument builtin. -/
def Predicate.hash_call (p : Predicate) : Except PyError ℤ :=
  pyHash [.str p.subj, .str p.pred, .str (pyStr p.obj)]

/-! ## Helper lemmas -/

/-- `pySubstring` decides list infixhood. -/
lemma pySubstring_iff (needle hay : String) :
    pySubstring needle hay = true ↔ needle.data <:+: hay.data := by
  simp [pySubstring]

/-- A fuzzy match succeeds whenever one normalized string is an infix of the
other (the second branch of `_fuzzy_match`). -/
lemma fuzzy_match_of_infix (s t : String) (th : ℚ)
    (h : (fuzzyNormalize s).data <:+: (fuzzyNormalize t).data ∨
         (fuzzyNormalize t).data <:+: (fuzzyNormalize s).data) :
    fuzzy_match s t th = true := by
  have hx : (pySubstring (fuzzyNormalize s) (fuzzyNormalize t) ||
      pySubstring (fuzzyNormalize t) (fuzzyNormalize s)) = true := by
    simp only [Bool.or_eq_true, pySubstring_iff]
    exact h
  simp only [fuzzy_match]
  split_ifs with h1
  · rfl
  · rfl

/-! ## Theorems for the claims -/

/-- **C1**: the claim says `from_dict(to_dict(p))` succeeds and losslessly
reproduces `p`.  In fact the round trip fails for *every* predicate:
`to_dict` stores the object under the key `"object"` and the category under
`"type"` (as the enum member, or `None` when absent), while `from_dict`
evaluates `PredicateType(data["type"] if data.get("type") else None)` first
— which raises `ValueError` when the category is absent, since `None` is
not a valid `PredicateType` — and otherwise reads the non-existent key
`data['obj']`, raising `KeyError`. -/
theorem from_dict_to_dict_always_fails (p : Predicate) :
    Predicate.from_dict p.to_dict =
      .error (match p.predicate_type with
        | some _ => PyError.keyError "obj"
        | _ => PyError.valueError "None is not a valid PredicateType") := by
  obtain ⟨s, r, o, c, src, t, m⟩ := p
  cases t <;> rfl

/-- **C2**: two predicates with identical `(subj, pred, obj)` triples but
different confidence, source, category and metadata compare equal — but
hashing does *not* succeed: `__hash__` calls the one-argument builtin
`hash` with three arguments, so it raises `TypeError` on every predicate. -/
theorem eq_ignores_rest_but_hash_raises :
    Predicate.eq
      (Predicate.mk "s" "r" (.str "o") 1 Option.none Option.none [])
      (Predicate.mk "s" "r" (.str "o") (1/2) (some "wiki") (some .ASSERTION)
        [("year", .int 1991)]) = true ∧
    (Predicate.mk "s" "r" (.str "o") 1 Option.none Option.none []).hash_call =
      .error (.typeError "hash() takes exactly one argument (3 given)") ∧
    (Predicate.mk "s" "r" (.str "o") (1/2) (some "wiki") (some .ASSERTION)
      [("year", .int 1991)]).hash_call =
      .error (.typeError "hash() takes exactly one argument (3 given)") :=
  ⟨by decide, rfl, rfl⟩

/-- **C5**: the claim says `from_dict` fails with a missing-field error
exactly when `subject`/`predicate`/`object` is absent, that an absent
`type` defaults to null, and that an invalid tag raises `ValidationError`.
In fact: with all three spec-required keys present and `type` absent,
`from_dict` raises `ValueError` (from `PredicateType(None)`); with a valid
`type` present it still raises `KeyError` on the key `'obj'`, which is not
the key `to_dict` writes; only the invalid-tag behaviour is as claimed. -/
theorem from_dict_required_and_default_behaviour :
    Predicate.from_dict
      [("subject", .str "s"), ("predicate", .str "r"), ("object", .str "o")] =
      .error (.valueError "None is not a valid PredicateType") ∧
    Predicate.from_dict
      [("subject", .str "s"), ("predicate", .str "r"), ("object", .str "o"),
       ("type", .str "assertion")] =
      .error (.keyError "obj") ∧
    Predicate.from_dict
      [("subject", .str "s"), ("predicate", .str "r"), ("object", .str "o"),
       ("obj", .str "o"), ("type", .str "banana")] =
      .error (.valueError "'banana' is not a valid PredicateType") :=
  ⟨rfl, rfl, rfl⟩

/-- **C6 counterexample**: the claim says that when one side of a compared
subject pair normalizes to the empty string (the sides not both empty), the
approximate-equality rule yields false.  Both predicates below are
constructible (the subject `"_"` is non-empty, so validation passes), the
subject `"_"` normalizes to `""` while `"x"` normalizes to `"x"`, and yet
the fuzzy match returns **true**: the empty string is a substring of every
string, so the substring branch fires. -/
theorem fuzzy_empty_side_counterexample :
    Predicate.construct "_" "r" (.str "x") 1 Option.none Option.none [] =
      .ok (Predicate.mk "_" "r" (.str "x") 1 Option.none Option.none []) ∧
    Predicate.construct "x" "r" (.str "x") 1 Option.none Option.none [] =
      .ok (Predicate.mk "x" "r" (.str "x") 1 Option.none Option.none []) ∧
    fuzzyNormalize "_" = "" ∧ fuzzyNormalize "x" = "x" ∧
    Predicate.matches (Predicate.mk "_" "r" (.str "x") 1 Option.none Option.none [])
      (Predicate.mk "x" "r" (.str "x") 1 Option.none Option.none []) true = true := by
  refine ⟨rfl, rfl, by decide, by decide, by decide⟩

/-- **C6 amended**: fuzzy matching raises no error (every operation in the
embedding is total), but when one side of a compared pair normalizes to the
empty string, the comparison yields **true**, not false: the empty string
is a substring of every string, so the substring branch fires before the
Jaccard step's empty-token-set guard can return false. -/
theorem fuzzy_match_empty_side (s t : String) (h : fuzzyNormalize s = "") :
    fuzzy_match s t (1/2) = true ∧ fuzzy_match t s (1/2) = true := by
  constructor
  · exact fuzzy_match_of_infix s t _ (Or.inl (by rw [h]; exact List.nil_infix))
  · exact fuzzy_match_of_infix t s _ (Or.inr (by rw [h]; exact List.nil_infix))

/-- Witness for `fuzzy_match_empty_side` at `s = "_"`, `t = "x"`. -/
theorem fuzzy_match_empty_side_witness :
    fuzzyNormalize "_" = "" ∧
    fuzzy_match "_" "x" (1/2) = true ∧ fuzzy_match "x" "_" (1/2) = true :=
  ⟨by decide, (fuzzy_match_empty_side "_" "x" (by decide)).1,
    (fuzzy_match_empty_side "_" "x" (by decide)).2⟩

/-- **C9**: `is_negation` returns true exactly when the relation is a member
of the fixed token set or begins with the literal prefix `"not_"`; in
particular it is true for `"cannot"` and `"not_allowed"` and false for
`"allows"` (and, being a total function, it never fails). -/
theorem is_negation_characterization :
    (∀ p : Predicate, p.is_negation = true ↔
      (p.pred ∈ negation_predicates ∨ "not_".data <+: p.pred.data)) ∧
    Predicate.is_negation
      (Predicate.mk "GPL" "cannot" (.str "x") 1 Option.none Option.none []) = true ∧
    Predicate.is_negation
      (Predicate.mk "s" "not_allowed" (.str "x") 1 Option.none Option.none []) = true ∧
    Predicate.is_negation
      (Predicate.mk "s" "allows" (.str "x") 1 Option.none Option.none []) = false := by
  refine ⟨fun p => ?_, by decide, by decide, by decide⟩
  simp [Predicate.is_negation, pyStartsWith, List.isPrefixOf_iff_prefix]

/-- Witness for `is_negation_characterization` at the `"cannot"` relation. -/
theorem is_negation_characterization_witness :
    (Predicate.mk "GPL" "cannot" (.str "x") 1 Option.none Option.none []).pred
        ∈ negation_predicates ∨
      "not_".data <+:
        (Predicate.mk "GPL" "cannot" (.str "x") 1 Option.none Option.none []).pred.data :=
  (is_negation_characterization.1 _).mp (by decide)

/-! ## Construction helpers -/

/-- Trimming an object never produces `None`. -/
lemma stripObj_eq_none (o : PyVal) : stripObj o = PyVal.none ↔ o = PyVal.none := by
  cases o <;> simp [stripObj]

/-- `construct` on a structural violation: the descriptive `ValueError`. -/
lemma construct_error_structural (s r : String) (o : PyVal) (c : ℚ)
    (src : Option String) (t : Option PredicateType) (m : List (String × PyLit))
    (h : pyStrip s = "" ∨ pyStrip r = "" ∨ o = PyVal.none) :
    Predicate.construct s r o c src t m =
      .error (.valueError "Subject, Predicate and Object must be non-empty") := by
  have h' : pyStrip s = "" ∨ pyStrip r = "" ∨ stripObj o = PyVal.none := by
    simpa [stripObj_eq_none] using h
  simp [Predicate.construct, h']

/-- `construct` on an out-of-range confidence (structure being fine): the
`ValueError` whose message carries the offending value. -/
lemma construct_error_confidence (s r : String) (o : PyVal) (c : ℚ)
    (src : Option String) (t : Option PredicateType) (m : List (String × PyLit))
    (h1 : ¬ (pyStrip s = "" ∨ pyStrip r = "" ∨ o = PyVal.none))
    (h2 : ¬ (0 ≤ c ∧ c ≤ 1)) :
    Predicate.construct s r o c src t m =
      .error (.valueError
        ("Confidence score must be in range [0, 1], got " ++ toString c)) := by
  have h1' : ¬ (pyStrip s = "" ∨ pyStrip r = "" ∨ stripObj o = PyVal.none) := by
    simpa [stripObj_eq_none] using h1
  simp [Predicate.construct, h1', h2]

/-- `construct` on fully valid input: the stripped, validated instance. -/
lemma construct_ok (s r : String) (o : PyVal) (c : ℚ)
    (src : Option String) (t : Option PredicateType) (m : List (String × PyLit))
    (h1 : ¬ (pyStrip s = "" ∨ pyStrip r = "" ∨ o = PyVal.none))
    (h2 : 0 ≤ c ∧ c ≤ 1) :
    Predicate.construct s r o c src t m =
      .ok (Predicate.mk (pyStrip s) (pyStrip r) (stripObj o) c src t m) := by
  have h1' : ¬ (pyStrip s = "" ∨ pyStrip r = "" ∨ stripObj o = PyVal.none) := by
    simpa [stripObj_eq_none] using h1
  simp [Predicate.construct, h1', h2]

/-- `construct` succeeds iff no validation condition is violated. -/
lemma construct_isOk_iff (s r : String) (o : PyVal) (c : ℚ)
    (src : Option String) (t : Option PredicateType) (m : List (String × PyLit)) :
    (Predicate.construct s r o c src t m).isOk = false ↔
      (pyStrip s = "" ∨ pyStrip r = "" ∨ o = PyVal.none ∨ ¬ (0 ≤ c ∧ c ≤ 1)) := by
  by_cases h1 : pyStrip s = "" ∨ pyStrip r = "" ∨ o = PyVal.none
  · rw [construct_error_structural s r o c src t m h1]
    simp only [Except.isOk, Except.toBool]
    constructor
    · intro _
      rcases h1 with h | h | h
      · exact Or.inl h
      · exact Or.inr (Or.inl h)
      · exact Or.inr (Or.inr (Or.inl h))
    · intro _; trivial
  · by_cases h2 : 0 ≤ c ∧ c ≤ 1
    · rw [construct_ok s r o c src t m h1 h2]
      simp only [Except.isOk, Except.toBool]
      constructor
      · intro h; exact absurd h (by decide)
      · intro h
        exfalso
        rcases h with h | h | h | h
        · exact h1 (Or.inl h)
        · exact h1 (Or.inr (Or.inl h))
        · exact h1 (Or.inr (Or.inr h))
        · exact h h2
    · rw [construct_error_confidence s r o c src t m h1 h2]
      simp only [Except.isOk, Except.toBool]
      constructor
      · intro _
        exact Or.inr (Or.inr (Or.inr h2))
      · intro _; trivial

/-- **C4**: construction fails exactly when the subject or relation trims to
empty, the object is `None`, or the confidence is outside `[0, 1]`; in the
confidence case the error message carries the offending value; and any
successfully constructed instance satisfies every invariant (no invalid
instance is observable). -/
theorem construct_validation (s r : String) (o : PyVal) (c : ℚ)
    (src : Option String) (t : Option PredicateType) (m : List (String × PyLit)) :
    ((Predicate.construct s r o c src t m).isOk = false ↔
      (pyStrip s = "" ∨ pyStrip r = "" ∨ o = PyVal.none ∨ ¬ (0 ≤ c ∧ c ≤ 1))) ∧
    (¬ (pyStrip s = "" ∨ pyStrip r = "" ∨ o = PyVal.none) → ¬ (0 ≤ c ∧ c ≤ 1) →
      Predicate.construct s r o c src t m =
        .error (.valueError
          ("Confidence score must be in range [0, 1], got " ++ toString c))) ∧
    (∀ q, Predicate.construct s r o c src t m = .ok q →
      q.subj ≠ "" ∧ q.pred ≠ "" ∧ q.obj ≠ PyVal.none ∧
        0 ≤ q.confidence ∧ q.confidence ≤ 1) := by
  refine ⟨construct_isOk_iff s r o c src t m,
    construct_error_confidence s r o c src t m, ?_⟩
  intro q hq
  by_cases h1 : pyStrip s = "" ∨ pyStrip r = "" ∨ o = PyVal.none
  · rw [construct_error_structural s r o c src t m h1] at hq
    exact absurd hq (by simp)
  · by_cases h2 : 0 ≤ c ∧ c ≤ 1
    · rw [construct_ok s r o c src t m h1 h2] at hq
      obtain ⟨hq⟩ := hq
      push_neg at h1
      refine ⟨h1.1, h1.2.1, by simpa [stripObj_eq_none] using h1.2.2, h2.1, h2.2⟩
    · rw [construct_error_confidence s r o c src t m h1 h2] at hq
      exact absurd hq (by simp)

/-- Witness for `construct_validation`: at `("s", "r", "o")` with confidence
`2` the constructor reports the out-of-range value in its message, and at
confidence `1` it yields a validated instance. -/
theorem construct_validation_witness :
    Predicate.construct "s" "r" (.str "o") 2 Option.none Option.none [] =
      .error (.valueError "Confidence score must be in range [0, 1], got 2") ∧
    (Predicate.construct "s" "r" (.str "o") 1 Option.none Option.none []).isOk
        = true := by
  refine ⟨(construct_validation "s" "r" (.str "o") 2 Option.none Option.none []).2.1
      (by decide) (by norm_num), ?_⟩
  have h := (construct_validation "s" "r" (.str "o") 1 Option.none Option.none []).1
  cases hh : (Predicate.construct "s" "r" (.str "o") 1 Option.none Option.none []).isOk
  · exact absurd (h.mp hh) (by decide)
  · rfl

/-! ## Exact matching -/

/-- Exact-mode `matches` decides equality of the identity triples. -/
lemma matches_false_iff (a b : Predicate) :
    a.matches b false = true ↔ a.to_triple = b.to_triple := by
  simp [Predicate.matches]

/-- **C7**: exact matching holds exactly on identical `(subject, relation,
object)` triples, and it is reflexive, symmetric and transitive — a true
equivalence relation over triples. -/
theorem exact_match_equivalence :
    (∀ a b : Predicate, a.matches b false = true ↔ a.to_triple = b.to_triple) ∧
    (∀ a : Predicate, a.matches a false = true) ∧
    (∀ a b : Predicate, a.matches b false = b.matches a false) ∧
    (∀ a b c : Predicate, a.matches b false = true → b.matches c false = true →
      a.matches c false = true) := by
  refine ⟨matches_false_iff, fun a => (matches_false_iff a a).mpr rfl, ?_, ?_⟩
  · intro a b
    rcases eq_or_ne a.to_triple b.to_triple with h | h
    · rw [(matches_false_iff a b).mpr h, (matches_false_iff b a).mpr h.symm]
    · have ha : a.matches b false ≠ true := fun hh => h ((matches_false_iff a b).mp hh)
      have hb : b.matches a false ≠ true := fun hh => h.symm ((matches_false_iff b a).mp hh)
      rw [Bool.eq_false_iff.mpr ha, Bool.eq_false_iff.mpr hb]
  · intro a b c hab hbc
    exact (matches_false_iff a c).mpr
      (((matches_false_iff a b).mp hab).trans ((matches_false_iff b c).mp hbc))

/-- Witness for `exact_match_equivalence`: transitivity applied at three
concrete predicates sharing the triple `("s", "r", "o")` but differing in
confidence. -/
theorem exact_match_equivalence_witness :
    Predicate.matches (Predicate.mk "s" "r" (.str "o") 1 Option.none Option.none [])
      (Predicate.mk "s" "r" (.str "o") 0 Option.none Option.none []) false = true :=
  exact_match_equivalence.2.2.2
    (Predicate.mk "s" "r" (.str "o") 1 Option.none Option.none [])
    (Predicate.mk "s" "r" (.str "o") (1/2) Option.none Option.none [])
    (Predicate.mk "s" "r" (.str "o") 0 Option.none Option.none [])
    (by decide) (by decide)

/-! ## Fuzzy matching: symmetry and non-transitivity -/

/-- `_fuzzy_match` is symmetric in its two string arguments. -/
lemma fuzzy_match_comm (s t : String) (th : ℚ) :
    fuzzy_match s t th = fuzzy_match t s th := by
  simp only [fuzzy_match]
  rcases eq_or_ne (fuzzyNormalize s) (fuzzyNormalize t) with h | h
  · simp [h]
  · rw [if_neg h, if_neg (Ne.symm h)]
    rw [Bool.or_comm (pySubstring (fuzzyNormalize s) (fuzzyNormalize t))
      (pySubstring (fuzzyNormalize t) (fuzzyNormalize s))]
    simp only [Bool.or_comm (decide (wordSet (fuzzyNormalize s) = ∅))
        (decide (wordSet (fuzzyNormalize t) = ∅)),
      Finset.union_comm (wordSet (fuzzyNormalize s)) (wordSet (fuzzyNormalize t)),
      Finset.inter_comm (wordSet (fuzzyNormalize s)) (wordSet (fuzzyNormalize t))]

/-- **C8**: fuzzy matching is symmetric for every pair of predicates, and
not transitive: with the common relation `"r"` and object `"o"`, the
subjects `"x"`, `"x y"`, `"y"` give A≈B (substring) and B≈C (substring) but
A≉C (no substring, Jaccard 0 < 0.5). -/
theorem fuzzy_match_symmetric_not_transitive :
    (∀ a b : Predicate, a.matches b true = b.matches a true) ∧
    Predicate.matches (Predicate.mk "x" "r" (.str "o") 1 Option.none Option.none [])
      (Predicate.mk "x y" "r" (.str "o") 1 Option.none Option.none []) true = true ∧
    Predicate.matches (Predicate.mk "x y" "r" (.str "o") 1 Option.none Option.none [])
      (Predicate.mk "y" "r" (.str "o") 1 Option.none Option.none []) true = true ∧
    Predicate.matches (Predicate.mk "x" "r" (.str "o") 1 Option.none Option.none [])
      (Predicate.mk "y" "r" (.str "o") 1 Option.none Option.none []) true = false := by
  refine ⟨?_, by decide, by decide, by decide⟩
  intro a b
  simp only [Predicate.matches, if_true]
  rw [fuzzy_match_comm a.subj b.subj, fuzzy_match_comm (pyStr a.obj) (pyStr b.obj)]
  rcases eq_or_ne a.pred b.pred with h | h
  · rw [h]
  · rw [beq_eq_false_iff_ne.mpr h, beq_eq_false_iff_ne.mpr (Ne.symm h)]

/-! ## Fuzzy matching: specification-side characterization -/

/-- The approximate-string-equality rule exactly as the specification words
it: after normalization (lowercase, trim, underscores to spaces, collapse
whitespace runs) the strings are identical, or one is a substring of the
other, or the word-level Jaccard similarity of the token sets is at least
`0.5` (and false by this clause when either token set is empty). -/
def approxEqSpec (s t : String) : Prop :=
  fuzzyNormalize s = fuzzyNormalize t ∨
  (fuzzyNormalize s).data <:+: (fuzzyNormalize t).data ∨
  (fuzzyNormalize t).data <:+: (fuzzyNormalize s).data ∨
  (wordSet (fuzzyNormalize s) ≠ ∅ ∧ wordSet (fuzzyNormalize t) ≠ ∅ ∧
    ((wordSet (fuzzyNormalize s) ∩ wordSet (fuzzyNormalize t)).card : ℚ) /
      ((wordSet (fuzzyNormalize s) ∪ wordSet (fuzzyNormalize t)).card : ℚ) ≥ 1/2)

/-- The source's ordered if-chain agrees with the specification's
disjunction. -/
lemma fuzzy_match_iff_approxEqSpec (s t : String) :
    fuzzy_match s t (mkRat 1 2) = true ↔ approxEqSpec s t := by
  have hdiv : ∀ i u : ℕ, (mkRat i u : ℚ) = (i : ℚ) / (u : ℚ) := by
    intro i u
    rw [Rat.mkRat_eq_div]
    push_cast
    rfl
  have hhalf : (mkRat 1 2 : ℚ) = 1/2 := by
    rw [Rat.mkRat_eq_div]
    norm_num
  simp only [fuzzy_match, approxEqSpec]
  split_ifs with h1 h2 h3 h4
  · simp [h1]
  · have := (by simpa [pySubstring_iff, Bool.or_eq_true] using h2 :
      (fuzzyNormalize s).data <:+: (fuzzyNormalize t).data ∨
      (fuzzyNormalize t).data <:+: (fuzzyNormalize s).data)
    simp [this]
    tauto
  · have hW : wordSet (fuzzyNormalize s) = ∅ ∨ wordSet (fuzzyNormalize t) = ∅ := by
      simpa using h3
    have hsub : ¬ ((fuzzyNormalize s).data <:+: (fuzzyNormalize t).data ∨
        (fuzzyNormalize t).data <:+: (fuzzyNormalize s).data) := by
      simpa [pySubstring_iff, Bool.or_eq_true] using h2
    constructor
    · intro hh
      exact absurd hh (by simp)
    · intro hh
      exfalso
      rcases hh with hh | hh | hh | hh
      · exact h1 hh
      · exact hsub (Or.inl hh)
      · exact hsub (Or.inr hh)
      · rcases hW with hW | hW
        · exact hh.1 hW
        · exact hh.2.1 hW
  · exfalso
    have hW : ¬ (wordSet (fuzzyNormalize s) = ∅ ∨ wordSet (fuzzyNormalize t) = ∅) := by
      simpa using h3
    rw [Finset.card_eq_zero, Finset.union_eq_empty] at h4
    exact hW (Or.inl h4.1)
  · have hW : ¬ (wordSet (fuzzyNormalize s) = ∅ ∨ wordSet (fuzzyNormalize t) = ∅) := by
      simpa using h3
    have hsub : ¬ ((fuzzyNormalize s).data <:+: (fuzzyNormalize t).data ∨
        (fuzzyNormalize t).data <:+: (fuzzyNormalize s).data) := by
      simpa [pySubstring_iff, Bool.or_eq_true] using h2
    push_neg at hW
    rw [decide_eq_true_iff, hhalf, hdiv]
    constructor
    · intro hh
      exact Or.inr (Or.inr (Or.inr ⟨hW.1, hW.2, hh⟩))
    · intro hh
      rcases hh with hh | hh | hh | hh
      · exact absurd hh h1
      · exact absurd (Or.inl hh) hsub
      · exact absurd (Or.inr hh) hsub
      · exact hh.2.2

/-- **C3**: fuzzy matching returns true iff the relations are exactly equal
(no normalization) and the subjects, and the objects coerced via `str`, are
approximately equal per the spec's normalization/substring/Jaccard rule
with threshold `0.5`; and on the spec's concrete example the MIT pair
matches fuzzily but not exactly. -/
theorem fuzzy_matches_characterization :
    (∀ a b : Predicate, a.matches b true = true ↔
      (a.pred = b.pred ∧ approxEqSpec a.subj b.subj ∧
        approxEqSpec (pyStr a.obj) (pyStr b.obj))) ∧
    Predicate.matches
      (Predicate.mk "MIT License" "allows" (.str "commercial_use") 1 Option.none Option.none [])
      (Predicate.mk "MIT" "allows" (.str "commercial use") 1 Option.none Option.none [])
      true = true ∧
    Predicate.matches
      (Predicate.mk "MIT License" "allows" (.str "commercial_use") 1 Option.none Option.none [])
      (Predicate.mk "MIT" "allows" (.str "commercial use") 1 Option.none Option.none [])
      false = false := by
  refine ⟨?_, by decide, by decide⟩
  intro a b
  simp only [Predicate.matches, if_true, Bool.and_eq_true, beq_iff_eq,
    fuzzy_match_iff_approxEqSpec]
  tauto

/-- Witness for `fuzzy_matches_characterization`: the characterization
applied at the MIT-license pair, with the spec-side conditions discharged
by computation. -/
theorem fuzzy_matches_characterization_witness :
    Predicate.matches
      (Predicate.mk "MIT License" "allows" (.str "commercial_use") 1 Option.none Option.none [])
      (Predicate.mk "MIT" "allows" (.str "commercial use") 1 Option.none Option.none [])
      true = true :=
  (fuzzy_matches_characterization.1
    (Predicate.mk "MIT License" "allows" (.str "commercial_use") 1 Option.none Option.none [])
    (Predicate.mk "MIT" "allows" (.str "commercial use") 1 Option.none Option.none [])).mpr
    ⟨rfl, Or.inr (Or.inr (Or.inl (by decide))), Or.inl (by decide)⟩

/-! ## Falsy non-null objects -/

/-- **C10**: with non-empty trimmed subject and relation, construction
rejects only a literally-`None` object: it succeeds for the empty-string
object (storing it), and for other falsy non-null values such as `0` and
`False`. -/
theorem construct_rejects_only_none_object (s r : String)
    (hs : pyStrip s ≠ "") (hr : pyStrip r ≠ "") :
    (∀ o : PyVal,
      (Predicate.construct s r o 1 Option.none Option.none []).isOk = false ↔
        o = PyVal.none) ∧
    Predicate.construct s r (.str "") 1 Option.none Option.none [] =
      .ok (Predicate.mk (pyStrip s) (pyStrip r) (.str "") 1 Option.none Option.none []) ∧
    (Predicate.construct s r (.int 0) 1 Option.none Option.none []).isOk = true ∧
    (Predicate.construct s r (.bool false) 1 Option.none Option.none []).isOk = true := by
  have hc : (0 : ℚ) ≤ 1 ∧ (1 : ℚ) ≤ 1 := by norm_num
  have hok : ∀ o : PyVal, o ≠ PyVal.none →
      (Predicate.construct s r o 1 Option.none Option.none []).isOk = true := by
    intro o ho
    rw [construct_ok s r o 1 Option.none Option.none []
      (by simp [hs, hr, ho]) hc]
    rfl
  refine ⟨?_, ?_, hok _ (by simp), hok _ (by simp)⟩
  · intro o
    constructor
    · intro h
      by_contra ho
      rw [hok o ho] at h
      cases h
    · intro ho
      rw [construct_error_structural s r o 1 Option.none Option.none []
        (Or.inr (Or.inr ho))]
      rfl
  · rw [construct_ok s r (.str "") 1 Option.none Option.none []
      (by simp [hs, hr]) hc]
    rfl

/-- Witness for `construct_rejects_only_none_object` at `("s", "r")`. -/
theorem construct_rejects_only_none_object_witness :
    Predicate.construct "s" "r" (.str "") 1 Option.none Option.none [] =
      .ok (Predicate.mk "s" "r" (.str "") 1 Option.none Option.none []) ∧
    (Predicate.construct "s" "r" (.int 0) 1 Option.none Option.none []).isOk = true := by
  have h := construct_rejects_only_none_object "s" "r" (by decide) (by decide)
  exact ⟨h.2.1, h.2.2.1⟩

/-- Witness for `from_dict_to_dict_always_fails` at a concrete predicate
with no category: the round trip raises the `PredicateType` error. -/
theorem from_dict_to_dict_always_fails_witness :
    Predicate.from_dict
      (Predicate.mk "s" "r" (.str "o") 1 Option.none Option.none []).to_dict =
      .error (.valueError "None is not a valid PredicateType") :=
  from_dict_to_dict_always_fails
    (Predicate.mk "s" "r" (.str "o") 1 Option.none Option.none [])

/-- Witness for `fuzzy_match_symmetric_not_transitive`: symmetry applied at
a concrete non-matching pair. -/
theorem fuzzy_match_symmetric_not_transitive_witness :
    Predicate.matches (Predicate.mk "x" "r" (.str "o") 1 Option.none Option.none [])
      (Predicate.mk "y" "r" (.str "o") 1 Option.none Option.none []) true =
    Predicate.matches (Predicate.mk "y" "r" (.str "o") 1 Option.none Option.none [])
      (Predicate.mk "x" "r" (.str "o") 1 Option.none Option.none []) true :=
  fuzzy_match_symmetric_not_transitive.1
    (Predicate.mk "x" "r" (.str "o") 1 Option.none Option.none [])
    (Predicate.mk "y" "r" (.str "o") 1 Option.none Option.none [])
